import Mathlib

/-
Verification of the snippetbox web application handlers, template cache and
snippet store against its specification.

The embedding follows the Go sources:
  cmd/web/handlers.go   (home, snippetView, snippetCreate)
  cmd/web/templates.go  (templateData, newTemplateCache, render)
  cmd/web/routes.go / main.go (wiring only)
The internal/models package (SnippetModel) and the helpers file
(notFound / clientError / serverError) are not part of the sources at hand,
so they are modelled from the specification, as marked on each definition.
-/

namespace Snippetbox

/-- Snippet is the entity of internal/models: identifier, title, content,
creation timestamp and expiry timestamp.  Timestamps and the identifier are
Go ints, embedded as Int. -/
structure Snippet where
  id      : Int
  title   : String
  content : String
  created : Int
  expires : Int
deriving Repr, DecidableEq

/-- Modelled from the spec: the state behind internal/models.SnippetModel,
which is not among the sources (only its callers are).  `snippets` is the
table contents, `nextId` the next store-assigned identifier, and `fault`
injects the backend-fault (StorageError) failure mode of spec section 4.1 and
section 7: when set, every store operation fails with a storage error. -/
structure DB where
  snippets : List Snippet
  nextId   : Int
  fault    : Bool
deriving Repr, DecidableEq

/-- Store errors: `noRecord` embeds models.ErrNoRecord (sql.ErrNoRows),
`storage` any other backend fault. -/
inductive StoreError where
  | noRecord
  | storage
deriving Repr, DecidableEq

/-- Modelled from the spec (section 4.1), internal/models not being among the
sources: Insert(title, content, expires) writes a new row with creation time
now and expiry now + expires, and returns the store-assigned identifier. -/
def SnippetModel.Insert (db : DB) (title content : String) (expires : Int)
    (now : Int) : Except StoreError (Int × DB) :=
  if db.fault then .error .storage
  else
    let s : Snippet := ⟨db.nextId, title, content, now, now + expires⟩
    .ok (db.nextId, ⟨db.snippets ++ [s], db.nextId + 1, db.fault⟩)

/-- Modelled from the spec (section 4.1): Get(id) fetches the row whose
identifier matches and whose expiry is still in the future; fails with
`noRecord` if no such row exists. -/
def SnippetModel.Get (db : DB) (id : Int) (now : Int) :
    Except StoreError Snippet :=
  if db.fault then .error .storage
  else
    match db.snippets.find? (fun s => s.id == id && decide (now < s.expires)) with
    | some s => .ok s
    | none => .error .noRecord

/-- Newest-created-first ordering on snippets (ORDER BY created DESC). -/
def byCreatedDesc (a b : Snippet) : Prop := b.created ≤ a.created

instance : DecidableRel byCreatedDesc :=
  fun a b => inferInstanceAs (Decidable (b.created ≤ a.created))

instance : IsTotal Snippet byCreatedDesc :=
  ⟨fun a b => le_total b.created a.created⟩

instance : IsTrans Snippet byCreatedDesc :=
  ⟨fun _ _ _ hab hbc => le_trans hbc hab⟩

/-- Modelled from the spec (section 4.1): Latest() returns up to 10
non-expired snippets ordered by creation time descending.  An empty list is a
valid success value. -/
def SnippetModel.Latest (db : DB) (now : Int) :
    Except StoreError (List Snippet) :=
  if db.fault then .error .storage
  else
    .ok (((db.snippets.filter (fun s => decide (now < s.expires))).insertionSort
      byCreatedDesc).take 10)

/-- Numeric value of a list of decimal digit characters. -/
def digitsVal (l : List Char) : Nat :=
  l.foldl (fun acc c => acc * 10 + (c.toNat - 48)) 0

/-- True for the ASCII decimal digits, the only digits strconv accepts. -/
def isDecDigit (c : Char) : Bool := '0' ≤ c && c ≤ '9'

/-- Largest Go int (64-bit). -/
def goIntMax : Int := 2 ^ 63 - 1

/-- Smallest Go int (64-bit). -/
def goIntMin : Int := -(2 ^ 63)

/-- Embedding of strconv.Atoi: an optional single leading sign followed by at
least one ASCII decimal digit, no surrounding whitespace, no other
characters; values outside the 64-bit int range fail with ErrRange.  `none`
stands for a non-nil error. -/
def atoi (s : String) : Option Int :=
  match s.data with
  | [] => none
  | c :: rest =>
    let neg : Bool := c == '-'
    let digits : List Char := if c == '-' || c == '+' then rest else c :: rest
    if digits.isEmpty || !(digits.all isDecDigit) then none
    else
      let v : Int := if neg then -(digitsVal digits : Int) else (digitsVal digits : Int)
      if v < goIntMin || goIntMax < v then none
      else some v

/-- templateData from cmd/web/templates.go: the render envelope, carrying at
most one of a single snippet or a list of snippets. -/
structure TemplateData where
  snippet  : Option Snippet
  snippets : List Snippet
deriving Repr, DecidableEq

/-- What a handler writes into the response.  `rendered page data` records
that the handler invoked app.render with that page name and envelope (the
render helper itself is embedded separately as `render`);
`redirect location` records http.Redirect; `errorText` the body written by
http.Error; `notFoundBody` the body of http.NotFound. -/
inductive ResponseBody where
  | notFoundBody
  | errorText (msg : String)
  | rendered (page : String) (data : TemplateData)
  | redirect (location : String)
deriving Repr, DecidableEq

/-- A handler response: status code, the Allow header if one was set, and the
body action. -/
structure Response where
  status : Int
  allow  : Option String
  body   : ResponseBody
deriving Repr, DecidableEq

/-- Modelled from the spec (section 7), the helpers file not being among the
sources: app.notFound sends a 404 via http.NotFound. -/
def notFoundResp : Response := ⟨404, none, .notFoundBody⟩

/-- Modelled from the spec (section 7): app.serverError logs and sends a
generic 500 Internal Server Error. -/
def serverErrorResp : Response := ⟨500, none, .errorText "Internal Server Error"⟩

/-- home from cmd/web/handlers.go.  `path` is r.URL.Path; on any path other
than exactly "/" it sends 404 and returns without touching the store;
otherwise it calls Latest, sends 500 on store failure, and renders the
"home.html" page with the list envelope. -/
def home (path : String) (db : DB) (now : Int) : Response :=
  if path ≠ "/" then notFoundResp
  else
    match SnippetModel.Latest db now with
    | .error _ => serverErrorResp
    | .ok snippets => ⟨200, none, .rendered "home.html" ⟨none, snippets⟩⟩

/-- snippetView from cmd/web/handlers.go.  `idParam` is
r.URL.Query().Get("id"), which is the empty string when the parameter is
absent.  strconv.Atoi failure or a value below 1 gives 404; then Get(id)
maps ErrNoRecord to 404, any other store error to 500, and success to a 200
render of the "view.html" page with the single-snippet envelope. -/
def snippetView (idParam : String) (db : DB) (now : Int) : Response :=
  match atoi idParam with
  | none => notFoundResp
  | some id =>
    if id < 1 then notFoundResp
    else
      match SnippetModel.Get db id now with
      | .error .noRecord => notFoundResp
      | .error .storage => serverErrorResp
      | .ok snippet => ⟨200, none, .rendered "view.html" ⟨some snippet, []⟩⟩

/-- The hard-coded dummy content of snippetCreate. -/
def snailContent : String :=
  "O snail\nClimb Mount Fuji,\nBut slowly, slowly!\n\n– Kobayashi Issa"

/-- snippetCreate from cmd/web/handlers.go.  `method` is r.Method.  A
non-POST method gets the Allow: POST header and a 405 from app.clientError
(http.Error with StatusText 405) and the handler returns before touching the
store.  Otherwise it inserts the hard-coded title, content and 7-day expiry,
sends 500 on store failure, and redirects (303 See Other) to the view URL of
the new identifier.  The returned DB is the store state after the request. -/
def snippetCreate (method : String) (db : DB) (now : Int) : Response × DB :=
  if method ≠ "POST" then
    (⟨405, some "POST", .errorText "Method Not Allowed"⟩, db)
  else
    match SnippetModel.Insert db "O snail" snailContent 7 now with
    | .error _ => (serverErrorResp, db)
    | .ok (id, db') =>
      (⟨303, none, .redirect ("/snippet/view?id=" ++ toString id)⟩, db')

/-- A template set of cmd/web/templates.go: the parsed grouping of the base
layout, all shared fragments from the partials directory, and one page
template.  The fields record which files were parsed into the set. -/
structure TemplateSet where
  base      : String
  fragments : List String
  page      : String
deriving Repr, DecidableEq

/-- Path of the base layout parsed into every template set. -/
def basePath : String := "./ui/html/base.html"

/-- filepath.Base: the last element of the path after dropping trailing
slashes; "." for the empty path, "/" when the path is all slashes.  Defined
over the character list so it evaluates by kernel reduction. -/
def splitOnSlash : List Char → List (List Char)
  | [] => [[]]
  | c :: rest =>
    let r := splitOnSlash rest
    if c = '/' then [] :: r
    else
      match r with
      | [] => [[c]]
      | h :: t => (c :: h) :: t

/-- filepath.Base on strings. -/
def filepathBase (path : String) : String :=
  if path = "" then "."
  else
    match ((splitOnSlash path.data).filter (fun l => !l.isEmpty)).getLast? with
    | some cs => String.mk cs
    | none => "/"

/-- newTemplateCache from cmd/web/templates.go.  `pages` stands for the glob
result on ./ui/html/pages/*.html and `fragments` for the glob on
./ui/html/partials/*.html; for every page file one template set of base
layout + all fragments + that page is stored under filepath.Base of the page
path.  The cache is an association list looked up with List.lookup; the glob
lists distinct file names of one directory, so keys never collide. -/
def newTemplateCache (pages fragments : List String) :
    List (String × TemplateSet) :=
  pages.map (fun page => (filepathBase page, ⟨basePath, fragments, page⟩))

/-- One observable write of the render helper on the response writer. -/
inductive WriteEvent where
  | statusWritten (status : Int)
  | errorWritten (status : Int) (msg : String)
  | templateExecuted (tmpl : String) (ts : TemplateSet) (data : TemplateData)
deriving Repr, DecidableEq

/-- render from cmd/web/templates.go, as the ordered trace of writes it makes
on the response writer.  A cache miss goes through app.serverError, which
writes only a 500 Internal Server Error; a hit writes the given status first
and then executes the template named "base" of the looked-up set against the
envelope.  A mid-stream execution fault (spec section 4.3 known limitation)
is outside the model. -/
def render (cache : List (String × TemplateSet)) (status : Int)
    (page : String) (data : TemplateData) : List WriteEvent :=
  match cache.lookup page with
  | none => [.errorWritten 500 "Internal Server Error"]
  | some ts => [.statusWritten status, .templateExecuted "base" ts data]

end Snippetbox

namespace Snippetbox

/-- C1: snippetView sends 404 when the id parameter is absent (empty string),
non-numeric, or below 1; otherwise it calls Store.Get(id) and maps ErrNoRecord
to 404, any other store error to 500, and success to a 200 render of the view
page with the single-snippet envelope. -/
theorem snippetView_spec (idParam : String) (db : DB) (now : Int) :
    (atoi idParam = none → snippetView idParam db now = notFoundResp) ∧
    (∀ id : Int, atoi idParam = some id → id < 1 →
      snippetView idParam db now = notFoundResp) ∧
    (∀ id : Int, atoi idParam = some id → 1 ≤ id →
      (SnippetModel.Get db id now = .error .noRecord →
        snippetView idParam db now = notFoundResp) ∧
      (SnippetModel.Get db id now = .error .storage →
        snippetView idParam db now = serverErrorResp) ∧
      (∀ s, SnippetModel.Get db id now = .ok s →
        snippetView idParam db now
          = ⟨200, none, .rendered "view.html" ⟨some s, []⟩⟩)) := by
  refine ⟨?_, ?_, ?_⟩
  · intro h; simp [snippetView, h]
  · intro id h hlt; simp [snippetView, h, hlt]
  · intro id h hge
    have hnlt : ¬ id < 1 := not_lt.mpr hge
    refine ⟨?_, ?_, ?_⟩
    · intro hget; simp [snippetView, h, hnlt, hget]
    · intro hget; simp [snippetView, h, hnlt, hget]
    · intro s hget; simp [snippetView, h, hnlt, hget]

/-- C1 witness: a concrete store holding snippet 2 and the request id "2". -/
theorem snippetView_spec_witness :
    snippetView "2" ⟨[⟨2, "t", "c", 0, 10⟩], 3, false⟩ 1
      = ⟨200, none, .rendered "view.html" ⟨some ⟨2, "t", "c", 0, 10⟩, []⟩⟩ :=
  ((snippetView_spec "2" ⟨[⟨2, "t", "c", 0, 10⟩], 3, false⟩ 1).2.2 2 rfl
    (by decide)).2.2 ⟨2, "t", "c", 0, 10⟩ rfl

/-- C2: on a POST, snippetCreate inserts the hard-coded title "O snail", the
fixed haiku content and a 7-day expiry (the embedding takes no request data at
all); a failed Insert yields 500 with the store unchanged, and a successful
Insert yields a 303 redirect to /snippet/view?id=<new id>. -/
theorem snippetCreate_post_spec (db : DB) (now : Int) :
    (∀ e, SnippetModel.Insert db "O snail" snailContent 7 now = .error e →
      snippetCreate "POST" db now = (serverErrorResp, db)) ∧
    (∀ id db',
      SnippetModel.Insert db "O snail" snailContent 7 now = .ok (id, db') →
      snippetCreate "POST" db now
        = (⟨303, none, .redirect ("/snippet/view?id=" ++ toString id)⟩, db')) := by
  constructor
  · intro e h; simp [snippetCreate, h]
  · intro id db' h; simp [snippetCreate, h]

/-- C2 witness: creating against an empty store redirects to id 1. -/
theorem snippetCreate_post_spec_witness :
    snippetCreate "POST" ⟨[], 1, false⟩ 0
      = (⟨303, none, .redirect ("/snippet/view?id=" ++ toString (1 : Int))⟩,
         ⟨[⟨1, "O snail", snailContent, 0, 7⟩], 2, false⟩) :=
  (snippetCreate_post_spec ⟨[], 1, false⟩ 0).2 1
    ⟨[⟨1, "O snail", snailContent, 0, 7⟩], 2, false⟩ rfl

/-- C5: home sends 404 on any path other than exactly "/" (for every store
state, so the store is not consulted); on "/" it returns 500 when Latest
fails and otherwise a 200 render of the home page with the list envelope. -/
theorem home_spec (path : String) (db : DB) (now : Int) :
    (path ≠ "/" → home path db now = notFoundResp) ∧
    (∀ e, SnippetModel.Latest db now = .error e →
      home "/" db now = serverErrorResp) ∧
    (∀ l, SnippetModel.Latest db now = .ok l →
      home "/" db now = ⟨200, none, .rendered "home.html" ⟨none, l⟩⟩) := by
  refine ⟨?_, ?_, ?_⟩
  · intro h; simp [home, h]
  · intro e h; simp [home, h]
  · intro l h; simp [home, h]

/-- C5 witness: the root path renders the one stored snippet. -/
theorem home_spec_witness :
    home "/" ⟨[⟨1, "a", "b", 0, 5⟩], 2, false⟩ 0
      = ⟨200, none, .rendered "home.html" ⟨none, [⟨1, "a", "b", 0, 5⟩]⟩⟩ :=
  (home_spec "/" ⟨[⟨1, "a", "b", 0, 5⟩], 2, false⟩ 0).2.2 [⟨1, "a", "b", 0, 5⟩] rfl

/-- C6: a non-POST request to snippetCreate gets status 405 and the response
header Allow: POST. -/
theorem snippetCreate_wrong_method_allow (method : String) (db : DB)
    (now : Int) (h : method ≠ "POST") :
    (snippetCreate method db now).1.status = 405 ∧
    (snippetCreate method db now).1.allow = some "POST" := by
  simp [snippetCreate, h]

/-- C6 witness: a GET to the create route. -/
theorem snippetCreate_wrong_method_allow_witness :
    (snippetCreate "GET" ⟨[], 1, false⟩ 0).1.status = 405 ∧
    (snippetCreate "GET" ⟨[], 1, false⟩ 0).1.allow = some "POST" :=
  snippetCreate_wrong_method_allow "GET" ⟨[], 1, false⟩ 0 (by decide)

/-- C9: on a non-POST request snippetCreate returns right after the 405
response: the result is exactly the 405 response paired with the unchanged
store state, independent of Insert. -/
theorem snippetCreate_wrong_method_frame (method : String) (db : DB)
    (now : Int) (h : method ≠ "POST") :
    snippetCreate method db now
      = (⟨405, some "POST", .errorText "Method Not Allowed"⟩, db) := by
  simp [snippetCreate, h]

/-- C9 witness: a PUT against a non-empty store leaves it unchanged. -/
theorem snippetCreate_wrong_method_frame_witness :
    snippetCreate "PUT" ⟨[⟨1, "a", "b", 0, 5⟩], 2, false⟩ 3
      = (⟨405, some "POST", .errorText "Method Not Allowed"⟩,
         ⟨[⟨1, "a", "b", 0, 5⟩], 2, false⟩) :=
  snippetCreate_wrong_method_frame "PUT" ⟨[⟨1, "a", "b", 0, 5⟩], 2, false⟩ 3
    (by decide)

/-- C7: render on a page name absent from the cache writes only the 500 of
serverError and never a success status; on a hit it writes the given status
first and then executes the template named "base" of the looked-up set
against the envelope. -/
theorem render_spec (cache : List (String × TemplateSet)) (status : Int)
    (page : String) (data : TemplateData) :
    (cache.lookup page = none →
      render cache status page data
        = [.errorWritten 500 "Internal Server Error"] ∧
      ∀ s, WriteEvent.statusWritten s ∉ render cache status page data) ∧
    (∀ ts, cache.lookup page = some ts →
      render cache status page data
        = [.statusWritten status, .templateExecuted "base" ts data]) := by
  constructor
  · intro h
    refine ⟨by simp [render, h], ?_⟩
    intro s
    simp [render, h]
  · intro ts h
    simp [render, h]

/-- C7 witness: a miss on the empty cache, and a hit on a one-entry cache. -/
theorem render_spec_witness :
    render [] 200 "home.html" ⟨none, []⟩
      = [.errorWritten 500 "Internal Server Error"] ∧
    render [("view.html", ⟨basePath, [], "./ui/html/pages/view.html"⟩)] 200
        "view.html" ⟨none, []⟩
      = [.statusWritten 200,
         .templateExecuted "base" ⟨basePath, [], "./ui/html/pages/view.html"⟩
           ⟨none, []⟩] :=
  ⟨((render_spec [] 200 "home.html" ⟨none, []⟩).1 rfl).1,
   (render_spec [("view.html", ⟨basePath, [], "./ui/html/pages/view.html"⟩)]
     200 "view.html" ⟨none, []⟩).2 ⟨basePath, [], "./ui/html/pages/view.html"⟩
     rfl⟩

/-- C10: snippetView consults the store exactly for the id strings that
strconv.Atoi parses to a value of at least 1, and otherwise answers 404
whatever the store holds; "+2" and "007" parse to 2 and 7 and resolve to the
snippets of those ids, while " 2", "2.0" and "2x" give 404. -/
theorem snippetView_accepts_atoi :
    (∀ s db now id, atoi s = some id → 1 ≤ id →
      snippetView s db now =
        (match SnippetModel.Get db id now with
          | .error .noRecord => notFoundResp
          | .error .storage => serverErrorResp
          | .ok sn => ⟨200, none, .rendered "view.html" ⟨some sn, []⟩⟩)) ∧
    (∀ s db now, (atoi s = none ∨ ∃ id, atoi s = some id ∧ id < 1) →
      snippetView s db now = notFoundResp) ∧
    atoi "+2" = some 2 ∧ atoi "007" = some 7 ∧
    (∀ db now sn, SnippetModel.Get db 2 now = .ok sn →
      snippetView "+2" db now
        = ⟨200, none, .rendered "view.html" ⟨some sn, []⟩⟩) ∧
    (∀ db now sn, SnippetModel.Get db 7 now = .ok sn →
      snippetView "007" db now
        = ⟨200, none, .rendered "view.html" ⟨some sn, []⟩⟩) ∧
    (∀ db now, snippetView " 2" db now = notFoundResp) ∧
    (∀ db now, snippetView "2.0" db now = notFoundResp) ∧
    (∀ db now, snippetView "2x" db now = notFoundResp) := by
  refine ⟨?_, ?_, by decide, by decide, ?_, ?_, ?_, ?_, ?_⟩
  · intro s db now id h hge
    have hnlt : ¬ id < 1 := not_lt.mpr hge
    simp only [snippetView, h, hnlt, if_false]
  · intro s db now h
    rcases h with h | ⟨id, h, hlt⟩
    · simp [snippetView, h]
    · simp [snippetView, h, hlt]
  · intro db now sn hget
    have h2 : atoi "+2" = some 2 := by decide
    simp [snippetView, h2, hget]
  · intro db now sn hget
    have h7 : atoi "007" = some 7 := by decide
    simp [snippetView, h7, hget]
  · intro db now
    have h : atoi " 2" = none := by decide
    simp [snippetView, h]
  · intro db now
    have h : atoi "2.0" = none := by decide
    simp [snippetView, h]
  · intro db now
    have h : atoi "2x" = none := by decide
    simp [snippetView, h]

/-- C10 witness: "+2" served against a store holding snippet 2. -/
theorem snippetView_accepts_atoi_witness :
    snippetView "+2" ⟨[⟨2, "t", "c", 0, 9⟩], 3, false⟩ 1
      = ⟨200, none, .rendered "view.html" ⟨some ⟨2, "t", "c", 0, 9⟩, []⟩⟩ :=
  snippetView_accepts_atoi.2.2.2.2.1 ⟨[⟨2, "t", "c", 0, 9⟩], 3, false⟩ 1
    ⟨2, "t", "c", 0, 9⟩ rfl

/-- C3: any successful Latest result has at most 10 snippets, all with expiry
in the future, ordered by creation time descending; a fault-free store always
succeeds, and the empty store succeeds with the empty list. -/
theorem latest_spec (db : DB) (now : Int) :
    (∀ l, SnippetModel.Latest db now = .ok l →
      l.length ≤ 10 ∧ (∀ s ∈ l, now < s.expires) ∧
      List.Pairwise byCreatedDesc l) ∧
    (db.fault = false → ∃ l, SnippetModel.Latest db now = .ok l) ∧
    SnippetModel.Latest ⟨[], db.nextId, false⟩ now = .ok [] := by
  refine ⟨?_, ?_, rfl⟩
  · intro l h
    unfold SnippetModel.Latest at h
    by_cases hf : db.fault
    · simp [hf] at h
    · simp only [hf, if_false] at h
      have hl :
          l = ((db.snippets.filter
            (fun s => decide (now < s.expires))).insertionSort
              byCreatedDesc).take 10 := by
        cases h
        rfl
      subst hl
      refine ⟨List.length_take_le 10 _, ?_, ?_⟩
      · intro s hs
        have hs₁ : s ∈ (db.snippets.filter
            (fun s => decide (now < s.expires))).insertionSort byCreatedDesc :=
          (List.take_sublist 10 _).mem hs
        have hs₂ : s ∈ db.snippets.filter (fun s => decide (now < s.expires)) :=
          (List.perm_insertionSort byCreatedDesc _).mem_iff.mp hs₁
        exact of_decide_eq_true (List.mem_filter.mp hs₂).2
      · exact (List.sorted_insertionSort byCreatedDesc _).sublist
          (List.take_sublist 10 _)
  · intro hf
    exact ⟨((db.snippets.filter
        (fun s => decide (now < s.expires))).insertionSort byCreatedDesc).take 10,
      by simp [SnippetModel.Latest, hf]⟩

/-- C3 witness: a three-snippet store at time 1, where one snippet is
expired; the two live ones come back newest-created-first. -/
theorem latest_spec_witness :
    ([⟨2, "b", "b", 5, 10⟩, ⟨1, "a", "a", 0, 10⟩] : List Snippet).length ≤ 10 ∧
    (∀ s ∈ ([⟨2, "b", "b", 5, 10⟩, ⟨1, "a", "a", 0, 10⟩] : List Snippet),
      (1 : Int) < s.expires) ∧
    List.Pairwise byCreatedDesc [⟨2, "b", "b", 5, 10⟩, ⟨1, "a", "a", 0, 10⟩] :=
  (latest_spec
    ⟨[⟨1, "a", "a", 0, 10⟩, ⟨2, "b", "b", 5, 10⟩, ⟨3, "c", "c", 2, 1⟩], 4,
      false⟩ 1).1 [⟨2, "b", "b", 5, 10⟩, ⟨1, "a", "a", 0, 10⟩] rfl

/-- find? skips a leading run on which the predicate is false. -/
theorem find_append_of_all_false {α : Type} (p : α → Bool) (l₁ l₂ : List α)
    (h : ∀ a ∈ l₁, p a = false) :
    (l₁ ++ l₂).find? p = l₂.find? p := by
  induction l₁ with
  | nil => rfl
  | cons a l ih =>
    have ha := h a (List.mem_cons_self a l)
    rw [List.cons_append, List.find?_cons_of_neg _ (by simp [ha])]
    exact ih (fun b hb => h b (List.mem_cons_of_mem a hb))

/-- C8: on a well-formed store (every stored id below nextId), a successful
Insert of a positive expiry followed immediately by a Get of the returned id
succeeds and returns a snippet with the same title and content. -/
theorem insert_get_roundtrip (db : DB) (title content : String)
    (expires now : Int) (id : Int) (db' : DB)
    (hwf : ∀ s ∈ db.snippets, s.id < db.nextId)
    (hexp : 0 < expires)
    (h : SnippetModel.Insert db title content expires now = .ok (id, db')) :
    SnippetModel.Get db' id now = .ok ⟨id, title, content, now, now + expires⟩ := by
  unfold SnippetModel.Insert at h
  by_cases hf : db.fault
  · simp [hf] at h
  · simp only [hf, Bool.false_eq_true, if_false, Except.ok.injEq,
      Prod.mk.injEq] at h
    obtain ⟨hid, hdb'⟩ := h
    subst hid
    subst hdb'
    unfold SnippetModel.Get
    simp only [Bool.false_eq_true, if_false]
    rw [find_append_of_all_false]
    · have hexp' : now < now + expires := lt_add_of_pos_right now hexp
      simp [List.find?, hexp']
    · intro s hs
      have hlt := hwf s hs
      have hne : (s.id == db.nextId) = false :=
        beq_eq_false_iff_ne.mpr (ne_of_lt hlt)
      simp [hne]

/-- C8 witness: inserting into the empty store and reading id 1 back. -/
theorem insert_get_roundtrip_witness :
    SnippetModel.Get ⟨[⟨1, "t", "c", 0, 7⟩], 2, false⟩ 1 0
      = .ok ⟨1, "t", "c", 0, 0 + 7⟩ :=
  insert_get_roundtrip ⟨[], 1, false⟩ "t" "c" 7 0 1
    ⟨[⟨1, "t", "c", 0, 7⟩], 2, false⟩ (by simp) (by decide) rfl

/-- Cache lookup by a page's base name finds that page's template set,
provided the base names of the page files are distinct (true of a glob over
one directory). -/
theorem lookup_newTemplateCache (pages fragments : List String) (page : String)
    (hmem : page ∈ pages) (hnodup : (pages.map filepathBase).Nodup) :
    (newTemplateCache pages fragments).lookup (filepathBase page)
      = some ⟨basePath, fragments, page⟩ := by
  induction pages with
  | nil => cases hmem
  | cons p ps ih =>
    rw [List.map_cons, List.nodup_cons] at hnodup
    rcases List.mem_cons.mp hmem with h | h
    · subst h
      simp [newTemplateCache, List.lookup]
    · have hne : filepathBase page ≠ filepathBase p := by
        intro he
        exact hnodup.1 (he ▸ List.mem_map_of_mem filepathBase h)
      have hbeq : (filepathBase page == filepathBase p) = false :=
        beq_eq_false_iff_ne.mpr hne
      simpa [newTemplateCache, List.lookup, hbeq] using ih h hnodup.2

/-- C4 counterexample: the cache built from the repository's page files is
not keyed by "home" or "view"; its keys carry the .html extension, as do the
page names the handlers pass to render. -/
theorem templateCache_key_counterexample :
    (newTemplateCache ["./ui/html/pages/home.html", "./ui/html/pages/view.html"]
      ["./ui/html/partials/nav.html"]).lookup "home" = none ∧
    (newTemplateCache ["./ui/html/pages/home.html", "./ui/html/pages/view.html"]
      ["./ui/html/partials/nav.html"]).lookup "view" = none ∧
    (newTemplateCache ["./ui/html/pages/home.html", "./ui/html/pages/view.html"]
      ["./ui/html/partials/nav.html"]).lookup "home.html"
      = some ⟨basePath, ["./ui/html/partials/nav.html"],
          "./ui/html/pages/home.html"⟩ := by
  refine ⟨by decide, by decide, by decide⟩

/-- C4 (amended): for every page file found, newTemplateCache stores exactly
one template set of base layout + all partials-directory fragments + that
page, keyed by the page's file name including its extension ("home.html",
"view.html"); those are exactly the keys the home and view handlers pass to
render. -/
theorem newTemplateCache_spec (pages fragments : List String) (page : String)
    (hmem : page ∈ pages) (hnodup : (pages.map filepathBase).Nodup) :
    (newTemplateCache pages fragments).lookup (filepathBase page)
      = some ⟨basePath, fragments, page⟩ ∧
    filepathBase "./ui/html/pages/home.html" = "home.html" ∧
    filepathBase "./ui/html/pages/view.html" = "view.html" ∧
    (∀ db now l, SnippetModel.Latest db now = .ok l →
      (home "/" db now).body = .rendered "home.html" ⟨none, l⟩) ∧
    (∀ db now sn, SnippetModel.Get db 1 now = .ok sn →
      (snippetView "1" db now).body = .rendered "view.html" ⟨some sn, []⟩) := by
  refine ⟨lookup_newTemplateCache pages fragments page hmem hnodup,
    by decide, by decide, ?_, ?_⟩
  · intro db now l h
    simp [home, h]
  · intro db now sn h
    have h1 : atoi "1" = some 1 := by decide
    simp [snippetView, h1, h]

/-- C4 witness: the repository's two page files and one fragment. -/
theorem newTemplateCache_spec_witness :
    (newTemplateCache ["./ui/html/pages/home.html", "./ui/html/pages/view.html"]
      ["./ui/html/partials/nav.html"]).lookup
        (filepathBase "./ui/html/pages/home.html")
      = some ⟨basePath, ["./ui/html/partials/nav.html"],
          "./ui/html/pages/home.html"⟩ :=
  (newTemplateCache_spec
    ["./ui/html/pages/home.html", "./ui/html/pages/view.html"]
    ["./ui/html/partials/nav.html"] "./ui/html/pages/home.html"
    (by simp) (by decide)).1

end Snippetbox
